import Mathlib

/-!
# Verification development for the fiber API bootstrap

Shallow embedding of

* `pkg/utils/response.go`   (the JSON response envelope),
* `pkg/database/mysql.go`   (`InitDB`),
* `cmd/api/main.go`         (`init`, `main`, the health route, the limiter
  configuration and the listen address).

Go strings are embedded as `String`; the only byte index taken by the code
(`port[0]`) is compared with the ASCII byte of a colon, and the first byte of
a UTF-8 string is that byte exactly when its first character is the colon.
-/

namespace FiberApp

/-! ## JSON values and the response envelope (`pkg/utils/response.go`) -/

/-- JSON documents, as produced by `encoding/json`. -/
inductive JSON where
  | null : JSON
  | bool : Bool → JSON
  | num : Int → JSON
  | str : String → JSON
  | arr : List JSON → JSON
  | obj : List (String × JSON) → JSON

/-- A Go value of type `any` handed to the envelope: `none` is the nil
interface, `some j` is a non-nil interface value whose JSON encoding is `j`
(`j` may be `JSON.null`, e.g. for a typed nil pointer). Values that the
encoder rejects are outside this type. -/
abbrev GoAny := Option JSON

/-- The struct `Response` of `response.go`. -/
structure Response where
  Success : Bool
  Message : String
  Data : GoAny
  Errors : GoAny

/-- One struct field tagged `omitempty` whose static type is an interface:
the encoder leaves the field out exactly when the interface is nil. -/
def omitemptyField (key : String) (v : GoAny) : List (String × JSON) :=
  match v with
  | none => []
  | some j => [(key, j)]

/-- The encoding of a `Response` by `json.Marshal`: fields in declaration
order under their tag names, the two `omitempty` fields only when non-nil. -/
def Response.marshal (r : Response) : List (String × JSON) :=
  [("success", JSON.bool r.Success), ("message", JSON.str r.Message)]
    ++ omitemptyField "data" r.Data
    ++ omitemptyField "errors" r.Errors

/-- What a handler leaves in the fiber context: the status code set by
`c.Status` and the JSON object written by `c.JSON`. -/
structure Reply where
  status : Int
  body : List (String × JSON)

/-- The keys of the serialized body, in order. -/
def Reply.keys (r : Reply) : List String := r.body.map Prod.fst

/-- The value stored under a key of the serialized body. -/
def Reply.field (r : Reply) (key : String) : Option JSON := r.body.lookup key

/-- `SuccessResponse(c, statusCode, message, data)`. -/
def SuccessResponse (statusCode : Int) (message : String) (data : GoAny) : Reply :=
  { status := statusCode
    body := Response.marshal { Success := true, Message := message, Data := data, Errors := none } }

/-- `ErrorResponse(c, statusCode, message, errors)`. -/
def ErrorResponse (statusCode : Int) (message : String) (errors : GoAny) : Reply :=
  { status := statusCode
    body := Response.marshal { Success := false, Message := message, Data := none, Errors := errors } }

/-! ## The process environment and the environment file -/

/-- The process environment: `none` is an unset variable. -/
abbrev Env := String → Option String

/-- `os.Getenv(key)`: the value, or the empty string when the variable is unset. -/
def Getenv (e : Env) (key : String) : String := (e key).getD ""

/-- The argument check of `os.Setenv`: the key is non-empty and holds neither
an equals sign nor a NUL, and the value holds no NUL. -/
def setenvAccepts (key value : String) : Bool :=
  key ≠ "" && !key.data.contains '=' && !key.data.contains (Char.ofNat 0)
    && !value.data.contains (Char.ofNat 0)

/-- The key/value pairs parsed from an environment file (first match wins on lookup). -/
abbrev EnvFile := List (String × String)

/-- The files the loader can see: `none` when reading or parsing the named file fails. -/
abbrev Files := String → Option EnvFile

/-- Modelled from the spec: `godotenv.Load`, a dependency whose source is not
under src/. The Configuration Loader reads an environment-specific settings
source; a missing source is not fatal (the caller logs a warning) and the
ambient process environment is what remains. Following the loader's documented
behaviour, a variable already present in the process environment keeps its
value, and every other key of the file is set through `os.Setenv`, whose error is discarded.
The result is the new environment and whether an error was returned. -/
def godotenv.Load (files : Files) (filename : String) (e : Env) : Env × Bool :=
  match files filename with
  | none => (e, true)
  | some file =>
    (fun k =>
      match e k with
      | some v => some v
      | none =>
        match file.lookup k with
        | some v => if setenvAccepts k v then some v else none
        | none => none,
     false)

/-! ## Effects -/

/-- Log levels of `gorm.io/gorm/logger`. -/
inductive LogLevel where
  | Silent | Error | Warn | Info
  deriving DecidableEq, Repr

/-- The fields of `gorm.Config` that `InitDB` touches: `Logger` is `none` in
the zero value `gorm.Config{}`. -/
structure GormConfig where
  Logger : Option LogLevel
  deriving DecidableEq, Repr

/-- The configuration passed to `cors.New` in `main`. -/
structure CorsConfig where
  AllowOrigins : String
  AllowMethods : String
  AllowHeaders : String
  AllowCredentials : Bool
  deriving DecidableEq

/-- The configuration passed to `limiter.New` in `main`: `Expiration` in
seconds, `LimitReached` the reply of the handler (it does not read the request). -/
structure LimiterConfig where
  Max : Int
  Expiration : Nat
  LimitReached : Reply

/-- Observable steps of `init`, `main` and `InitDB`, in program order. -/
inductive Event where
  | printf (msg : String)
  | sprintfDSN (dsn : String)
  | gormOpen (dsn : String) (cfg : GormConfig)
  | dbDB
  | ping
  | setMaxIdleConns (n : Nat)
  | setMaxOpenConns (n : Nat)
  | setConnMaxLifetime (seconds : Nat)
  | fiberNew
  | useCors (cfg : CorsConfig)
  | useLimiter (cfg : LimiterConfig)
  | get (path : String)
  | listen (addr : String)

/-- Is the event a step of the database set-up (building the connection
string, opening, pinging or sizing the connection)? -/
def Event.isDatabase : Event → Bool
  | .sprintfDSN _ => true
  | .gormOpen _ _ => true
  | .dbDB => true
  | .ping => true
  | .setMaxIdleConns _ => true
  | .setMaxOpenConns _ => true
  | .setConnMaxLifetime _ => true
  | _ => false

/-- The address of an `app.Listen` event. -/
def Event.listenAddr : Event → Option String
  | .listen addr => some addr
  | _ => none

/-- The configuration of a `gorm.Open` event. -/
def Event.openConfig : Event → Option GormConfig
  | .gormOpen _ cfg => some cfg
  | _ => none

/-- The connection string of a `gorm.Open` event. -/
def Event.openDSN : Event → Option String
  | .gormOpen dsn _ => some dsn
  | _ => none

/-- A finished run: what happened, the process environment at the end, and
either the returned value or the message of the `log.Fatal` that ended it. -/
structure Run (α : Type) where
  events : List Event
  env : Env
  result : Except String α

/-! ## `InitDB` (`pkg/database/mysql.go`) -/

/-- What the database side answers: the error (if any) of `gorm.Open`, of
`db.DB()` and of `sqlDB.Ping()`. -/
structure Driver where
  gormOpen : String → GormConfig → Option String
  dbDB : Option String
  ping : Option String

/-- The value `InitDB` returns: the handle opened on `dsn` with `config`,
with the pool settings applied to it (lifetime in seconds). -/
structure DB where
  dsn : String
  config : GormConfig
  maxIdleConns : Nat
  maxOpenConns : Nat
  connMaxLifetime : Nat
  deriving DecidableEq

/-- The five variables the validation check of `InitDB` reads. -/
def dbKeys : List String := ["DB_USER", "DB_PASS", "DB_HOST", "DB_PORT", "DB_NAME"]

/-- The message of the fatal exit of the validation check (`mysql.go`, line 36). -/
def dbEnvNotSet : String := "Database environment variables are not set"

/-- Lines 17-20 of `mysql.go`: the environment name `InitDB` works with. -/
def InitDB.envName (e : Env) : String :=
  let env := Getenv e "APP_ENV"
  if env = "" then "development" else env

/-- The process environment after line 22 of `mysql.go` (first load). -/
def InitDB.envRead (files : Files) (e : Env) : Env :=
  (godotenv.Load files (".env." ++ InitDB.envName e) e).1

/-- The process environment after line 33 of `mysql.go` (second load): the
one the validation check of line 35 reads. -/
def InitDB.envChecked (files : Files) (e : Env) : Env :=
  (godotenv.Load files (".env." ++ InitDB.envName e) (InitDB.envRead files e)).1

/-- Lines 22-25 of `mysql.go`: the warning logged when the first load fails. -/
def InitDB.warning (files : Files) (e : Env) : List Event :=
  if (godotenv.Load files (".env." ++ InitDB.envName e) e).2 then
    [Event.printf ("Warning: .env." ++ InitDB.envName e
      ++ " file not found, using system environment variables")]
  else []

/-- Lines 27-31 and 39-41 of `mysql.go`: the connection string, formatted from
the five values read after the first load. -/
def InitDB.dsn (files : Files) (e : Env) : String :=
  Getenv (InitDB.envRead files e) "DB_USER" ++ ":" ++ Getenv (InitDB.envRead files e) "DB_PASS"
    ++ "@tcp(" ++ Getenv (InitDB.envRead files e) "DB_HOST" ++ ":"
    ++ Getenv (InitDB.envRead files e) "DB_PORT" ++ ")/" ++ Getenv (InitDB.envRead files e) "DB_NAME"
    ++ "?charset=utf8mb4&parseTime=True&loc=Local"

/-- The condition of line 35 of `mysql.go`, on the environment it reads. -/
def InitDB.invalid (files : Files) (e : Env) : Prop :=
  Getenv (InitDB.envChecked files e) "DB_USER" = "" ∨ Getenv (InitDB.envChecked files e) "DB_NAME" = ""
    ∨ Getenv (InitDB.envChecked files e) "DB_HOST" = "" ∨ Getenv (InitDB.envChecked files e) "DB_PORT" = ""
    ∨ Getenv (InitDB.envChecked files e) "DB_PASS" = ""

instance (files : Files) (e : Env) : Decidable (InitDB.invalid files e) := by
  unfold InitDB.invalid; infer_instance

/-- Lines 43-48 of `mysql.go`: the local `gormConfig`, with the logger chosen
from the environment name. -/
def InitDB.gormConfig (env : String) : GormConfig :=
  let gormConfig : GormConfig := { Logger := none }
  if env = "development" then
    { gormConfig with Logger := some LogLevel.Info }
  else
    { gormConfig with Logger := some LogLevel.Error }

/-- Lines 50-69 of `mysql.go`: open the connection on `dsn`, get the pool,
ping it, size the pool and return the handle; each failure is a fatal exit.
`ev` are the events so far and `e` the process environment. -/
def InitDB.connect (drv : Driver) (ev : List Event) (e : Env) (dsn : String) : Run DB :=
  let ev := ev ++ [Event.gormOpen dsn { Logger := none }]
  match drv.gormOpen dsn { Logger := none } with
  | some err =>
    { events := ev, env := e, result := .error ("Gagal membuka koneksi database: " ++ err) }
  | none =>
    let ev := ev ++ [Event.dbDB]
    match drv.dbDB with
    | some err =>
      { events := ev, env := e, result := .error ("Gagal mendapatkan instance database: " ++ err) }
    | none =>
      let ev := ev ++ [Event.ping]
      match drv.ping with
      | some err =>
        { events := ev, env := e
          result := .error ("Database tidak merespon (Ping gagal): " ++ err) }
      | none =>
        let ev := ev ++ [Event.setMaxIdleConns 10, Event.setMaxOpenConns 100,
          Event.setConnMaxLifetime 3600,
          Event.printf "Koneksi database berhasil dan terverifikasi!"]
        { events := ev, env := e
          result := .ok { dsn := dsn, config := { Logger := none }, maxIdleConns := 10,
                          maxOpenConns := 100, connMaxLifetime := 3600 } }

/-- `InitDB()`, line by line: lines 17-48 here, lines 50-69 in `InitDB.connect`.
The local `gormConfig` of lines 43-48 is computed and not used again: the
call of `gorm.Open` on line 50 is given a fresh `&gorm.Config{}`. -/
def InitDB (files : Files) (drv : Driver) (e : Env) : Run DB :=
  let env := Getenv e "APP_ENV"
  let env := if env = "" then "development" else env
  let loaded := godotenv.Load files (".env." ++ env) e
  let e1 := loaded.1
  let ev : List Event :=
    if loaded.2 then
      [Event.printf ("Warning: .env." ++ env ++ " file not found, using system environment variables")]
    else []
  let dbUser := Getenv e1 "DB_USER"
  let dbPass := Getenv e1 "DB_PASS"
  let dbHost := Getenv e1 "DB_HOST"
  let dbPort := Getenv e1 "DB_PORT"
  let dbName := Getenv e1 "DB_NAME"
  let e2 := (godotenv.Load files (".env." ++ env) e1).1
  if Getenv e2 "DB_USER" = "" ∨ Getenv e2 "DB_NAME" = "" ∨ Getenv e2 "DB_HOST" = ""
      ∨ Getenv e2 "DB_PORT" = "" ∨ Getenv e2 "DB_PASS" = "" then
    { events := ev, env := e2, result := .error dbEnvNotSet }
  else
    let dsn := dbUser ++ ":" ++ dbPass ++ "@tcp(" ++ dbHost ++ ":" ++ dbPort ++ ")/" ++ dbName
      ++ "?charset=utf8mb4&parseTime=True&loc=Local"
    let ev := ev ++ [Event.sprintfDSN dsn]
    let _gormConfig := InitDB.gormConfig env
    InitDB.connect drv ev e2 dsn

/-! ## Time (`time.Now`, `Format`, `Location`) -/

/-- A `*time.Location`, as far as the code reads it: its name. -/
structure Location where
  name : String
  deriving DecidableEq, Repr

/-- A reading of the wall clock in the process-local zone: the civil fields
that `Time.Date()` and `Time.Clock()` give. -/
structure WallClock where
  year : Int
  month : Nat
  day : Nat
  hour : Nat
  minute : Nat
  second : Nat
  deriving DecidableEq, Repr

/-- A `time.Time`: a clock reading together with its location. -/
structure Time where
  clock : WallClock
  loc : Location
  deriving DecidableEq, Repr

/-- `time.Now()`: the current reading, located in `time.Local`. -/
def Now (Local : Location) (clock : WallClock) : Time := { clock := clock, loc := Local }

/-- `t.Location()`. -/
def Time.Location (t : Time) : Location := t.loc

/-- `l.String()`. -/
def Location.String (l : Location) : String := l.name

/-- A clock reading a running process can get: the civil fields in range and
a year of four digits. -/
def WallClock.Valid (c : WallClock) : Prop :=
  0 ≤ c.year ∧ c.year ≤ 9999 ∧ 1 ≤ c.month ∧ c.month ≤ 12 ∧ 1 ≤ c.day ∧ c.day ≤ 31
    ∧ c.hour < 24 ∧ c.minute < 60 ∧ c.second < 60

instance (c : WallClock) : Decidable c.Valid := by
  unfold WallClock.Valid; infer_instance

/-- The ASCII digit of a number below ten. -/
def digitChar (d : Nat) : Char := Char.ofNat (48 + d)

/-- The digit loop of `appendInt`, least significant digit first; the buffer
of `appendInt` has 20 bytes, which bounds the loop. -/
def digitsRev : Nat → Nat → List Char
  | 0, _ => []
  | fuel + 1, u => if u < 10 then [digitChar u] else digitChar (u % 10) :: digitsRev fuel (u / 10)

/-- `appendInt(b, x, width)` of package `time`, as the bytes it appends: a
minus sign for a negative number, zero padding up to `width`, the digits. -/
def appendInt (x : Int) (width : Nat) : List Char :=
  let sign : List Char := if x < 0 then ['-'] else []
  let ds := (digitsRev 20 x.natAbs).reverse
  sign ++ List.replicate (width - ds.length) '0' ++ ds

/-- `t.Format("2006-01-02 15:04:05")`: long year, zero-padded month and day,
zero-padded hour, minute and second. -/
def Time.Format (t : Time) : String :=
  String.mk (appendInt t.clock.year 4 ++ ['-'] ++ appendInt t.clock.month 2 ++ ['-']
    ++ appendInt t.clock.day 2 ++ [' '] ++ appendInt t.clock.hour 2 ++ [':']
    ++ appendInt t.clock.minute 2 ++ [':'] ++ appendInt t.clock.second 2)

/-- The shape `YYYY-MM-DD HH:MM:SS`, checked on the characters alone. -/
def isTimestamp (s : String) : Bool :=
  match s.data with
  | [y1, y2, y3, y4, a, m1, m2, b, d1, d2, c, h1, h2, d, n1, n2, e, s1, s2] =>
    y1.isDigit && y2.isDigit && y3.isDigit && y4.isDigit && a == '-'
      && m1.isDigit && m2.isDigit && b == '-' && d1.isDigit && d2.isDigit && c == ' '
      && h1.isDigit && h2.isDigit && d == ':' && n1.isDigit && n2.isDigit && e == ':'
      && s1.isDigit && s2.isDigit
  | _ => false

/-- The number a string of ASCII digits denotes. -/
def digitsValue (cs : List Char) : Nat :=
  cs.foldl (fun acc ch => 10 * acc + (ch.toNat - 48)) 0

/-- The civil fields read back from a `YYYY-MM-DD HH:MM:SS` string. -/
def readTimestamp (s : String) : Option WallClock :=
  match s.data with
  | [y1, y2, y3, y4, _, m1, m2, _, d1, d2, _, h1, h2, _, n1, n2, _, s1, s2] =>
    some { year := digitsValue [y1, y2, y3, y4], month := digitsValue [m1, m2],
           day := digitsValue [d1, d2], hour := digitsValue [h1, h2],
           minute := digitsValue [n1, n2], second := digitsValue [s1, s2] }
  | _ => none

/-- `time.LoadLocation(name)`: UTC for the empty name and for "UTC",
otherwise the zone of that name when the time-zone data (`tzdata`) has it. -/
def LoadLocation (tzdata : String → Bool) (Local : Location) (name : String) :
    Except String Location :=
  if name = "" ∨ name = "UTC" then .ok { name := "UTC" }
  else if name = "Local" then .ok Local
  else if tzdata name then .ok { name := name }
  else .error ("unknown time zone " ++ name)

/-- `init()` of `main.go`: loads Asia/Jakarta, exits fatally when that fails,
otherwise assigns it to `time.Local` (the value of the run) and logs twice. -/
def init (tzdata : String → Bool) (Local : Location) (clock1 clock2 : WallClock) :
    Except String (Location × List Event) :=
  match LoadLocation tzdata Local "Asia/Jakarta" with
  | .error err => .error ("Gagal memuat timezone Asia/Jakarta: " ++ err)
  | .ok loc =>
    let Local := loc
    .ok (Local,
      [Event.printf ("Timezone dikonfigurasi ke: " ++ (Now Local clock1).Location.String),
       Event.printf ("Waktu saat ini: " ++ (Now Local clock2).Format)])

/-! ## `main` (`cmd/api/main.go`) -/

/-- Lines 29-32 of `main.go`: the environment name `main` works with. -/
def main.envName (e : Env) : String :=
  let env := Getenv e "APP_ENV"
  if env = "" then "development" else env

/-- The byte index `s[0]`: `none` stands for the run-time panic on an empty string. -/
def index0 (s : String) : Option Char := s.data.head?

/-- The message of the run-time panic of an index into an empty string. -/
def indexPanic : String := "panic: runtime error: index out of range [0] with length 0"

/-- Lines 65-70 of `main.go`: the listen address computed from `APP_PORT`. An
error is the panic of `port[0]`. -/
def main.port (appPort : String) : Except String String :=
  let port := appPort
  if port = "" then .ok ":3000"
  else
    match index0 port with
    | none => .error indexPanic
    | some b => if b ≠ ':' then .ok (":" ++ port) else .ok port

/-- The CORS configuration of `main` (lines 42-47). -/
def main.corsConfig : CorsConfig :=
  { AllowOrigins := "https://classybrandedcrew.com, http://localhost:3000"
    AllowMethods := "GET,POST,PUT,DELETE,OPTIONS"
    AllowHeaders := "Origin, Content-Type, Accept, Authorization"
    AllowCredentials := true }

/-- The limiter configuration of `main` (lines 49-55): 50 requests, one
minute, and the `LimitReached` handler replying through `ErrorResponse` with a
nil `errors` argument. -/
def main.limiterConfig : LimiterConfig :=
  { Max := 50
    Expiration := 1 * 60
    LimitReached := ErrorResponse 429 "Too many requests" none }

/-- The handler of `GET /api/v1/health` (lines 59-63); the two readings are
those of its two calls of `time.Now()`. The data is a `map[string]string`,
which the encoder writes with its keys sorted. -/
def healthHandler (Local : Location) (clock1 clock2 : WallClock) : Reply :=
  SuccessResponse 200 "API is Healthy"
    (some (JSON.obj [("server_time", JSON.str ((Now Local clock1).Format)),
                     ("timezone", JSON.str ((Now Local clock2).Location.String))]))

/-- `main()`, line by line, up to and including `log.Fatal(app.Listen(port))`.
`listen` is the error `app.Listen` returns for an address (`none`: it serves
and does not return). The call of `database.InitDB` on line 38 is commented
out in the source, so it is not part of `main`. -/
def main (files : Files) (listen : String → Option String) (e : Env) : Run Unit :=
  let env := Getenv e "APP_ENV"
  let env := if env = "" then "development" else env
  let loaded := godotenv.Load files (".env." ++ env) e
  let e1 := loaded.1
  let ev : List Event :=
    if loaded.2 then
      [Event.printf ("Warning: .env." ++ env ++ " file not found, using system environment variables")]
    else []
  let ev := ev ++ [Event.fiberNew, Event.useCors main.corsConfig,
    Event.useLimiter main.limiterConfig, Event.get "/api/v1/health"]
  match main.port (Getenv e1 "APP_PORT") with
  | .error p => { events := ev, env := e1, result := .error p }
  | .ok port =>
    let ev := ev ++ [Event.printf ("Server starting on port " ++ port ++ " in " ++ env ++ " mode"),
      Event.listen port]
    match listen port with
    | some err => { events := ev, env := e1, result := .error err }
    | none => { events := ev, env := e1, result := .ok () }

/-! ## The rate limiter and request handling -/

/-- The limiter's record for one client: hits in the current window and the
second at which the window ends (0: no window yet). -/
structure item where
  currHits : Int
  exp : Nat
  deriving DecidableEq, Repr

/-- The limiter's storage, by client key; a client never seen has the zero record. -/
abbrev Storage := String → item

/-- The storage of a freshly started server. -/
def Storage.empty : Storage := fun _ => { currHits := 0, exp := 0 }

/-- Modelled from the spec: the fixed-window rate limiter returned by
`limiter.New` (package `middleware/limiter` of the web framework, not under
src/): at most `Max` requests per window of `Expiration` seconds per client;
a request beyond the limit receives the `LimitReached` reply instead of the
route's. A window opens with the first request of a client, or with the first
one after the previous window has ended, and every request counts as a hit.
`ts` is the second at which the request is admitted, `next` the reply of the
rest of the chain. -/
def limiterNew (cfg : LimiterConfig) (next : Reply) (st : Storage) (key : String) (ts : Nat) :
    Storage × Reply :=
  let e := st key
  let e : item :=
    if e.exp = 0 then { e with exp := ts + cfg.Expiration }
    else if ts ≥ e.exp then { currHits := 0, exp := ts + cfg.Expiration }
    else e
  let e : item := { e with currHits := e.currHits + 1 }
  let remaining := cfg.Max - e.currHits
  let st : Storage := fun k => if k = key then e else st k
  if remaining < 0 then (st, cfg.LimitReached) else (st, next)

/-- A `GET /api/v1/health` request as the server sees it: the client key
(its IP address), the second at which the limiter admits it, and the two
clock readings of the handler. -/
structure Request where
  ip : String
  ts : Nat
  clock1 : WallClock
  clock2 : WallClock
  deriving DecidableEq

/-- One request through the middleware chain registered by `main`: the CORS
middleware passes a plain GET on, the limiter decides, the route replies. -/
def serve (Local : Location) (st : Storage) (req : Request) : Storage × Reply :=
  limiterNew main.limiterConfig (healthHandler Local req.clock1 req.clock2) st req.ip req.ts

/-- The replies to a sequence of requests, in order. -/
def serveAll (Local : Location) : Storage → List Request → List Reply
  | _, [] => []
  | st, req :: rest => (serve Local st req).2 :: serveAll Local (serve Local st req).1 rest

/-- The first request opens a new window for the client: the client has no
window yet, or its window has ended. -/
def opensWindow (st : Storage) (req : Request) : Prop :=
  st req.ip = { currHits := 0, exp := 0 } ∨ (0 < (st req.ip).exp ∧ (st req.ip).exp ≤ req.ts)

instance (st : Storage) (req : Request) : Decidable (opensWindow st req) := by
  unfold opensWindow; infer_instance

/-! ## Sample worlds -/

/-- No environment file can be read. -/
def noFiles : Files := fun _ => none

/-- A database side on which every call succeeds. -/
def okDriver : Driver := { gormOpen := fun _ _ => none, dbDB := none, ping := none }

/-- An `app.Listen` that binds and serves. -/
def okListen : String → Option String := fun _ => none

/-- A process environment in which nothing is set. -/
def emptyEnv : Env := fun _ => none

/-- A process environment with the five database variables set and APP_ENV unset. -/
def devEnv : Env := fun k =>
  if k = "DB_USER" then some "root" else if k = "DB_PASS" then some "secret"
  else if k = "DB_HOST" then some "127.0.0.1" else if k = "DB_PORT" then some "3306"
  else if k = "DB_NAME" then some "app" else none

/-- The same with APP_ENV set to production. -/
def prodEnv : Env := fun k => if k = "APP_ENV" then some "production" else devEnv k

/-- A clock reading: 4 November 2026, 09:05:07. -/
def sampleClock : WallClock :=
  { year := 2026, month := 11, day := 4, hour := 9, minute := 5, second := 7 }

/-- Time-zone data that has every zone. -/
def fullTzdata : String → Bool := fun _ => true

/-- A health request of one client, admitted at second 100. -/
def sampleRequest : Request :=
  { ip := "10.0.0.1", ts := 100, clock1 := sampleClock, clock2 := sampleClock }

/-! ## Theorems: the response envelope -/

/-- C1 (as stated, refuted): with the nil payload `SuccessResponse` writes only
the keys success and message; the key data is not in the body. -/
theorem successResponse_nil_omits_data :
    (SuccessResponse 200 "API is Healthy" none).keys = ["success", "message"]
      ∧ "data" ∉ (SuccessResponse 200 "API is Healthy" none).keys
      ∧ ¬ ((SuccessResponse 200 "API is Healthy" none).keys = ["success", "message", "data"]) := by
  simp [SuccessResponse, Response.marshal, omitemptyField, Reply.keys]

/-- C1 (amended): for every status, message and payload, `SuccessResponse`
replies with that status, success = true, message equal to the argument and no
key errors; the key data is present, carrying the payload, exactly when the
payload is not nil: the keys are success, message, data for a non-nil payload
and success, message for the nil payload. -/
theorem successResponse_envelope (status : Int) (message : String) (data : GoAny) :
    (SuccessResponse status message data).status = status
      ∧ (SuccessResponse status message data).field "success" = some (JSON.bool true)
      ∧ (SuccessResponse status message data).field "message" = some (JSON.str message)
      ∧ (SuccessResponse status message data).field "data" = data
      ∧ (SuccessResponse status message data).field "errors" = none
      ∧ "errors" ∉ (SuccessResponse status message data).keys
      ∧ (SuccessResponse status message data).keys
          = (match data with
             | some _ => ["success", "message", "data"]
             | none => ["success", "message"]) := by
  cases data <;>
    simp [SuccessResponse, Response.marshal, omitemptyField, Reply.keys, Reply.field, List.lookup]

/-- C2 (as stated, refuted): the rate limiter calls `ErrorResponse` with nil
errors, and the body then has only the keys success and message; the key
errors is not in it. -/
theorem errorResponse_nil_omits_errors :
    (ErrorResponse 429 "Too many requests" none).keys = ["success", "message"]
      ∧ "errors" ∉ (ErrorResponse 429 "Too many requests" none).keys
      ∧ ¬ ((ErrorResponse 429 "Too many requests" none).keys = ["success", "message", "errors"]) := by
  simp [ErrorResponse, Response.marshal, omitemptyField, Reply.keys]

/-- C2 (amended): for every status, message and errors payload, `ErrorResponse`
replies with that status, success = false, message equal to the argument and
no key data; the key errors is present, carrying the payload, exactly when the
payload is not nil: the keys are success, message, errors for a non-nil payload
and success, message for the nil payload (the rate limiter's case). -/
theorem errorResponse_envelope (status : Int) (message : String) (errors : GoAny) :
    (ErrorResponse status message errors).status = status
      ∧ (ErrorResponse status message errors).field "success" = some (JSON.bool false)
      ∧ (ErrorResponse status message errors).field "message" = some (JSON.str message)
      ∧ (ErrorResponse status message errors).field "errors" = errors
      ∧ (ErrorResponse status message errors).field "data" = none
      ∧ "data" ∉ (ErrorResponse status message errors).keys
      ∧ (ErrorResponse status message errors).keys
          = (match errors with
             | some _ => ["success", "message", "errors"]
             | none => ["success", "message"]) := by
  cases errors <;>
    simp [ErrorResponse, Response.marshal, omitemptyField, Reply.keys, Reply.field, List.lookup]

/-! ## Theorems: the listen address -/

theorem string_eq_empty_iff (s : String) : s = "" ↔ s.data = [] := by
  constructor
  · intro h; subst h; rfl
  · intro h; cases s; simp_all

theorem main_port_eq (p : String) :
    main.port p = .ok (if p = "" then ":3000" else if p.data.head? = some ':' then p else ":" ++ p) := by
  unfold main.port index0
  by_cases h : p = ""
  · simp [h]
  · have hd : p.data ≠ [] := fun hd => h ((string_eq_empty_iff p).2 hd)
    simp only [h, if_false]
    cases hp : p.data with
    | nil => exact absurd hp hd
    | cons c cs =>
      by_cases hc : c = ':' <;> simp [hc]

/-- C8: the listen address of `main` defaults to port 3000: it is ":3000" when
APP_PORT is unset or empty, APP_PORT itself when that begins with a colon, and
a colon followed by APP_PORT otherwise; so the address is never empty, always
begins with a colon, the index `port[0]` never panics, and normalising the
address again leaves it unchanged. -/
theorem listen_address_normalised (e : Env) :
    ∃ addr : String,
      main.port (Getenv e "APP_PORT") = .ok addr
      ∧ addr = (match e "APP_PORT" with
                | none => ":3000"
                | some p =>
                  if p = "" then ":3000" else if p.data.head? = some ':' then p else ":" ++ p)
      ∧ addr ≠ ""
      ∧ addr.data.head? = some ':'
      ∧ main.port (Getenv e "APP_PORT") ≠ .error indexPanic
      ∧ main.port addr = .ok addr := by
  refine ⟨_, main_port_eq _, ?_, ?_, ?_, ?_, ?_⟩
  · unfold Getenv
    cases e "APP_PORT" <;> simp
  · split_ifs with h1 h2
    · decide
    · exact h1
    · intro h
      have := congrArg String.data h
      simp [String.data_append] at this
  · split_ifs with h1 h2
    · rfl
    · exact h2
    · simp [String.data_append]
  · rw [main_port_eq]; simp
  · have hne : ∀ a : String, a ≠ "" → a.data.head? = some ':' → main.port a = .ok a := by
      intro a h1 h2
      rw [main_port_eq]; simp [h1, h2]
    apply hne
    · split_ifs with h1 h2
      · decide
      · exact h1
      · intro h
        have := congrArg String.data h
        simp [String.data_append] at this
    · split_ifs with h1 h2
      · rfl
      · exact h2
      · simp [String.data_append]

/-! ## Theorems: the environment name -/

theorem main_env (files : Files) (listen : String → Option String) (e : Env) :
    (main files listen e).env = (godotenv.Load files (".env." ++ main.envName e) e).1 := by
  unfold main main.envName
  simp only []
  split <;> [rfl; (split <;> rfl)]

theorem connect_env (drv : Driver) (ev : List Event) (e : Env) (dsn : String) :
    (InitDB.connect drv ev e dsn).env = e := by
  unfold InitDB.connect
  simp only []
  split
  · rfl
  · split
    · rfl
    · split <;> rfl

theorem initDB_eq (files : Files) (drv : Driver) (e : Env) :
    InitDB files drv e =
      if InitDB.invalid files e then
        { events := InitDB.warning files e, env := InitDB.envChecked files e
          result := .error dbEnvNotSet }
      else
        InitDB.connect drv (InitDB.warning files e ++ [Event.sprintfDSN (InitDB.dsn files e)])
          (InitDB.envChecked files e) (InitDB.dsn files e) := rfl

theorem initDB_env (files : Files) (drv : Driver) (e : Env) :
    (InitDB files drv e).env = InitDB.envChecked files e := by
  rw [initDB_eq]
  split
  · rfl
  · rw [connect_env]

/-- C6: environment-name resolution gives "development" when APP_ENV is unset
or empty and the value of APP_ENV unchanged otherwise; `main` and `InitDB`
resolve the same name from the same process environment, and each loads the
environment file of that name. -/
theorem envName_resolution (files : Files) (listen : String → Option String) (drv : Driver)
    (e : Env) :
    main.envName e
        = (match e "APP_ENV" with
           | none => "development"
           | some v => if v = "" then "development" else v)
      ∧ InitDB.envName e = main.envName e
      ∧ (main files listen e).env = (godotenv.Load files (".env." ++ main.envName e) e).1
      ∧ (InitDB files drv e).env
          = (godotenv.Load files (".env." ++ InitDB.envName e)
              (godotenv.Load files (".env." ++ InitDB.envName e) e).1).1 := by
  refine ⟨?_, rfl, main_env files listen e, initDB_env files drv e⟩
  unfold main.envName Getenv
  cases e "APP_ENV" <;> simp

/-! ## Theorems: `InitDB` -/

theorem load_idem (files : Files) (filename : String) (e : Env) :
    (godotenv.Load files filename (godotenv.Load files filename e).1).1
      = (godotenv.Load files filename e).1 := by
  unfold godotenv.Load
  cases hf : files filename with
  | none => simp [hf]
  | some file =>
    simp only [hf]
    funext k
    cases hk : e k with
    | some v => rfl
    | none =>
      simp only []
      cases file.lookup k with
      | none => rfl
      | some v => by_cases hv : setenvAccepts k v = true <;> simp [hv]

theorem envChecked_eq_envRead (files : Files) (e : Env) :
    InitDB.envChecked files e = InitDB.envRead files e := by
  unfold InitDB.envChecked InitDB.envRead
  exact load_idem files _ e

theorem connect_result_ne (drv : Driver) (ev : List Event) (e : Env) (dsn : String) :
    (InitDB.connect drv ev e dsn).result ≠ .error dbEnvNotSet := by
  have key : ∀ (pre err : String), pre.data.head? ≠ some 'D' ∨ pre.data.get? 9 ≠ some 'e' →
      pre.length ≥ 10 → (Except.error (pre ++ err) : Except String DB) ≠ .error dbEnvNotSet := by
    intro pre err hpre hlen h
    injection h with h
    have hd := congrArg String.data h
    rw [String.data_append] at hd
    have hlen2 : 10 ≤ pre.data.length := hlen
    rcases hpre with hpre | hpre
    · apply hpre
      have := congrArg List.head? hd
      rw [List.head?_append_of_ne_nil _ (by intro hn; rw [hn] at hlen2; simp at hlen2)] at this
      rw [this]; rfl
    · apply hpre
      have := congrArg (fun l => l.get? 9) hd
      simp only [List.get?_eq_getElem?] at this ⊢
      rw [List.getElem?_append_left (by omega)] at this
      rw [this]; rfl
  unfold InitDB.connect
  simp only []
  split
  · exact key _ _ (Or.inl (by decide)) (by decide)
  · split
    · exact key _ _ (Or.inl (by decide)) (by decide)
    · split
      · exact key _ _ (Or.inr (by decide)) (by decide)
      · intro h; cases h

theorem invalid_iff (files : Files) (e : Env) :
    InitDB.invalid files e ↔ ∃ key ∈ dbKeys, Getenv (InitDB.envChecked files e) key = "" := by
  simp only [InitDB.invalid, dbKeys, List.mem_cons, List.mem_singleton, List.not_mem_nil,
    exists_eq_or_imp, or_false, exists_eq_left]
  tauto

theorem initDB_fatal_iff (files : Files) (drv : Driver) (e : Env) :
    (InitDB files drv e).result = .error dbEnvNotSet ↔ InitDB.invalid files e := by
  rw [initDB_eq]
  by_cases h : InitDB.invalid files e
  · simp [h]
  · simp only [h, if_false, iff_false]
    exact connect_result_ne _ _ _ _

theorem warning_no_database (files : Files) (e : Env) :
    (InitDB.warning files e).all (fun ev => !ev.isDatabase) = true := by
  unfold InitDB.warning
  split <;> simp [Event.isDatabase]

/-- C5: `InitDB` exits fatally with "Database environment variables are not
set" if and only if, once the environment file has been loaded, at least one
of DB_USER, DB_PASS, DB_HOST, DB_PORT, DB_NAME reads as the empty string; in
that run no connection string is built and no connection is opened. -/
theorem initDB_validation (files : Files) (drv : Driver) (e : Env) :
    ((InitDB files drv e).result = .error "Database environment variables are not set"
        ↔ ∃ key ∈ dbKeys, Getenv (InitDB.envChecked files e) key = "")
      ∧ InitDB.envChecked files e = (godotenv.Load files (".env." ++ InitDB.envName e) e).1
      ∧ ((InitDB files drv e).result = .error "Database environment variables are not set"
          → (InitDB files drv e).events.all (fun ev => !ev.isDatabase) = true
            ∧ (InitDB files drv e).events.filterMap Event.openDSN = []) := by
  refine ⟨(initDB_fatal_iff files drv e).trans (invalid_iff files e),
    envChecked_eq_envRead files e, ?_⟩
  intro h
  have hi := (initDB_fatal_iff files drv e).1 h
  rw [initDB_eq]
  simp only [hi, if_true]
  refine ⟨warning_no_database files e, ?_⟩
  unfold InitDB.warning
  split <;> simp [Event.openDSN]

theorem connect_openDSN (drv : Driver) (ev : List Event) (e : Env) (dsn : String) :
    (InitDB.connect drv ev e dsn).events.filterMap Event.openDSN
      = ev.filterMap Event.openDSN ++ [dsn] := by
  unfold InitDB.connect
  simp only []
  split
  · simp [List.filterMap_append, Event.openDSN]
  · split
    · simp [List.filterMap_append, Event.openDSN]
    · split <;> simp [List.filterMap_append, Event.openDSN]

theorem connect_openConfig (drv : Driver) (ev : List Event) (e : Env) (dsn : String) :
    (InitDB.connect drv ev e dsn).events.filterMap Event.openConfig
      = ev.filterMap Event.openConfig ++ [{ Logger := none }] := by
  unfold InitDB.connect
  simp only []
  split
  · simp [List.filterMap_append, Event.openConfig]
  · split
    · simp [List.filterMap_append, Event.openConfig]
    · split <;> simp [List.filterMap_append, Event.openConfig]

theorem warning_openDSN (files : Files) (e : Env) :
    (InitDB.warning files e).filterMap Event.openDSN = [] := by
  unfold InitDB.warning
  split <;> simp [Event.openDSN]

theorem warning_openConfig (files : Files) (e : Env) :
    (InitDB.warning files e).filterMap Event.openConfig = [] := by
  unfold InitDB.warning
  split <;> simp [Event.openConfig]

theorem initDB_openConfig (files : Files) (drv : Driver) (e : Env) :
    (InitDB files drv e).events.filterMap Event.openConfig
      = if InitDB.invalid files e then [] else [{ Logger := none }] := by
  rw [initDB_eq]
  split
  · exact warning_openConfig files e
  · rw [connect_openConfig, List.filterMap_append, warning_openConfig]
    simp [Event.openConfig]

/-- C9: whenever `InitDB` passes validation, the one connection string it
opens is "USER:PASS@tcp(HOST:PORT)/NAME?charset=utf8mb4&parseTime=True&loc=Local"
with the five values that the validation check inspected, all of them
non-empty, although the code read them before the second load of the
environment file and the check reads the environment after it. -/
theorem initDB_dsn_from_validated (files : Files) (drv : Driver) (e : Env)
    (h : (InitDB files drv e).result ≠ .error "Database environment variables are not set") :
    (InitDB files drv e).events.filterMap Event.openDSN
        = [Getenv (InitDB.envChecked files e) "DB_USER" ++ ":"
            ++ Getenv (InitDB.envChecked files e) "DB_PASS" ++ "@tcp("
            ++ Getenv (InitDB.envChecked files e) "DB_HOST" ++ ":"
            ++ Getenv (InitDB.envChecked files e) "DB_PORT" ++ ")/"
            ++ Getenv (InitDB.envChecked files e) "DB_NAME"
            ++ "?charset=utf8mb4&parseTime=True&loc=Local"]
      ∧ (∀ key ∈ dbKeys, Getenv (InitDB.envChecked files e) key ≠ "")
      ∧ (InitDB files drv e).env = InitDB.envChecked files e := by
  have hv : ¬ InitDB.invalid files e := fun hi => h ((initDB_fatal_iff files drv e).2 hi)
  refine ⟨?_, ?_, initDB_env files drv e⟩
  · rw [initDB_eq]
    simp only [hv, if_false]
    rw [connect_openDSN, List.filterMap_append, warning_openDSN]
    simp only [InitDB.dsn, envChecked_eq_envRead, List.filterMap_cons, Event.openDSN,
      List.filterMap_nil, List.nil_append]
  · intro key hk hempty
    exact hv ((invalid_iff files e).2 ⟨key, hk, hempty⟩)

/-- C9, at a concrete input: with the five variables set and no environment
file, the connection string opened is the one formatted from them. -/
theorem initDB_dsn_from_validated_witness :
    (InitDB noFiles okDriver devEnv).result ≠ .error "Database environment variables are not set"
      ∧ (InitDB noFiles okDriver devEnv).events.filterMap Event.openDSN
          = ["root:secret@tcp(127.0.0.1:3306)/app?charset=utf8mb4&parseTime=True&loc=Local"] := by
  have h : (InitDB noFiles okDriver devEnv).result
      ≠ .error "Database environment variables are not set" := by
    intro h
    simp [InitDB, InitDB.connect, noFiles, okDriver, devEnv, godotenv.Load, Getenv] at h
  refine ⟨h, ?_⟩
  have := (initDB_dsn_from_validated noFiles okDriver devEnv h).1
  rw [this]
  decide

/-- C10: the configuration with which `InitDB` opens the connection does not
depend on the environment name: in every two runs that reach `gorm.Open`, it
receives the same empty `gorm.Config`, whose logger is unset, so the log level
chosen from the environment name (Info for development, Error otherwise) is
not in the configuration of the opened connection. -/
theorem gormOpen_config_ignores_env (files1 files2 : Files) (drv1 drv2 : Driver) (e1 e2 : Env)
    (cfg1 cfg2 : GormConfig)
    (h1 : cfg1 ∈ (InitDB files1 drv1 e1).events.filterMap Event.openConfig)
    (h2 : cfg2 ∈ (InitDB files2 drv2 e2).events.filterMap Event.openConfig) :
    cfg1 = cfg2
      ∧ cfg1 = { Logger := none }
      ∧ InitDB.gormConfig (InitDB.envName e1)
          = { Logger := some (if InitDB.envName e1 = "development" then LogLevel.Info
                              else LogLevel.Error) }
      ∧ cfg1 ≠ InitDB.gormConfig (InitDB.envName e1) := by
  have hc : ∀ (files : Files) (drv : Driver) (e : Env) (cfg : GormConfig),
      cfg ∈ (InitDB files drv e).events.filterMap Event.openConfig → cfg = { Logger := none } := by
    intro files drv e cfg hmem
    rw [initDB_openConfig] at hmem
    split at hmem
    · simp at hmem
    · simpa using hmem
  have hg : InitDB.gormConfig (InitDB.envName e1)
      = { Logger := some (if InitDB.envName e1 = "development" then LogLevel.Info
                          else LogLevel.Error) } := by
    unfold InitDB.gormConfig
    split <;> simp_all
  refine ⟨by rw [hc _ _ _ _ h1, hc _ _ _ _ h2], hc _ _ _ _ h1, hg, ?_⟩
  rw [hc _ _ _ _ h1, hg]
  intro h
  cases h

/-- C10, at a concrete input: a development run and a production run open the
connection with the same configuration. -/
theorem gormOpen_config_ignores_env_witness :
    InitDB.envName devEnv = "development" ∧ InitDB.envName prodEnv = "production"
      ∧ ({ Logger := none } : GormConfig)
          ∈ (InitDB noFiles okDriver devEnv).events.filterMap Event.openConfig
      ∧ ({ Logger := none } : GormConfig)
          ∈ (InitDB noFiles okDriver prodEnv).events.filterMap Event.openConfig
      ∧ ({ Logger := none } : GormConfig) ≠ InitDB.gormConfig (InitDB.envName devEnv) :=
  ⟨by decide, by decide, by decide, by decide,
    (gormOpen_config_ignores_env noFiles noFiles okDriver okDriver devEnv prodEnv
      { Logger := none } { Logger := none } (by decide) (by decide)).2.2.2⟩

/-! ## Theorems: `main` -/

theorem main_eq (files : Files) (listen : String → Option String) (e : Env) :
    main files listen e =
      match main.port (Getenv (godotenv.Load files (".env." ++ main.envName e) e).1 "APP_PORT") with
      | .error p =>
        { events := (if (godotenv.Load files (".env." ++ main.envName e) e).2 then
              [Event.printf ("Warning: .env." ++ main.envName e
                ++ " file not found, using system environment variables")]
            else []) ++ [Event.fiberNew, Event.useCors main.corsConfig,
              Event.useLimiter main.limiterConfig, Event.get "/api/v1/health"]
          env := (godotenv.Load files (".env." ++ main.envName e) e).1
          result := .error p }
      | .ok port =>
        { events := (if (godotenv.Load files (".env." ++ main.envName e) e).2 then
              [Event.printf ("Warning: .env." ++ main.envName e
                ++ " file not found, using system environment variables")]
            else []) ++ [Event.fiberNew, Event.useCors main.corsConfig,
              Event.useLimiter main.limiterConfig, Event.get "/api/v1/health"]
            ++ [Event.printf ("Server starting on port " ++ port ++ " in " ++ main.envName e
                  ++ " mode"), Event.listen port]
          env := (godotenv.Load files (".env." ++ main.envName e) e).1
          result := match listen port with
            | some err => .error err
            | none => .ok () } := by
  unfold main main.envName
  simp only []
  split
  · rfl
  · split <;> simp_all

/-- C4 (as stated, refuted): with none of the five database variables set,
`main` runs no validation and reaches `app.Listen` on ":3000". -/
theorem main_listens_without_database_config :
    (∀ key ∈ dbKeys, Getenv (main noFiles okListen emptyEnv).env key = "")
      ∧ (main noFiles okListen emptyEnv).events.filterMap Event.listenAddr = [":3000"]
      ∧ (main noFiles okListen emptyEnv).events.all (fun ev => !ev.isDatabase) = true := by
  decide

/-- C4 (amended): the call of `InitDB` in `main` is commented out, so `main`
runs no database-configuration validation: for every environment, whatever the
five database variables are, `main` performs no database step, computes the
listen address from APP_PORT and reaches `app.Listen` on it as its last step,
ending fatally only if `app.Listen` returns an error. -/
theorem main_reaches_listen (files : Files) (listen : String → Option String) (e : Env) :
    ∃ addr : String,
      main.port (Getenv (main files listen e).env "APP_PORT") = .ok addr
      ∧ (main files listen e).events.filterMap Event.listenAddr = [addr]
      ∧ (main files listen e).events.getLast? = some (Event.listen addr)
      ∧ (main files listen e).events.all (fun ev => !ev.isDatabase) = true
      ∧ (main files listen e).result
          = (match listen addr with
             | some err => .error err
             | none => .ok ()) := by
  obtain ⟨addr, haddr⟩ : ∃ addr, main.port
      (Getenv (godotenv.Load files (".env." ++ main.envName e) e).1 "APP_PORT") = .ok addr :=
    ⟨_, main_port_eq _⟩
  refine ⟨addr, ?_, ?_, ?_, ?_, ?_⟩
  · rw [main_env]; exact haddr
  · rw [main_eq, haddr]
    simp only []
    split <;> simp [Event.listenAddr, List.filterMap_append]
  · rw [main_eq, haddr]
    simp only []
    split <;> simp
  · rw [main_eq, haddr]
    simp only []
    split <;> simp [Event.isDatabase]
  · rw [main_eq, haddr]

/-! ## Theorems: the health route -/

theorem digitChar_spec (k : Nat) (h : k < 10) :
    (digitChar k).isDigit = true ∧ (digitChar k).toNat - 48 = k := by
  interval_cases k <;> exact ⟨by decide, by decide⟩

theorem appendInt_two (n : Nat) (h : n < 100) :
    appendInt (n : Int) 2 = [digitChar (n / 10), digitChar (n % 10)] := by
  have hs : ¬ ((n : Int) < 0) := by omega
  unfold appendInt
  simp only [hs, if_false, Int.natAbs_ofNat, List.nil_append]
  by_cases h1 : n < 10
  · have h0 : n / 10 = 0 := by omega
    have hm : n % 10 = n := by omega
    simp [digitsRev, h1, h0, hm, digitChar]
  · have h2 : n / 10 < 10 := by omega
    simp [digitsRev, h1, h2]

theorem appendInt_four (n : Nat) (h : n < 10000) :
    appendInt (n : Int) 4
      = [digitChar (n / 1000), digitChar (n / 100 % 10), digitChar (n / 10 % 10),
         digitChar (n % 10)] := by
  have hs : ¬ ((n : Int) < 0) := by omega
  unfold appendInt
  simp only [hs, if_false, Int.natAbs_ofNat, List.nil_append]
  by_cases h1 : n < 10
  · have e1 : n / 1000 = 0 := by omega
    have e2 : n / 100 % 10 = 0 := by omega
    have e3 : n / 10 % 10 = 0 := by omega
    have e4 : n % 10 = n := by omega
    simp [digitsRev, h1, e1, e2, e3, e4, digitChar]
  · by_cases h2 : n / 10 < 10
    · have e1 : n / 1000 = 0 := by omega
      have e2 : n / 100 % 10 = 0 := by omega
      have e3 : n / 10 % 10 = n / 10 := by omega
      simp [digitsRev, h1, h2, e1, e2, e3, digitChar]
    · by_cases h3 : n / 10 / 10 < 10
      · have e1 : n / 1000 = 0 := by omega
        have e2 : n / 100 % 10 = n / 10 / 10 := by omega
        simp [digitsRev, h1, h2, h3, e1, e2, digitChar]
      · have h4 : n / 10 / 10 / 10 < 10 := by omega
        have e1 : n / 1000 = n / 10 / 10 / 10 := by omega
        have e2 : n / 100 % 10 = n / 10 / 10 % 10 := by omega
        simp [digitsRev, h1, h2, h3, h4, e1, e2]

theorem format_eq (Local : Location) (c : WallClock) (h : c.Valid) :
    ((Now Local c).Format).data
      = [digitChar (c.year.toNat / 1000), digitChar (c.year.toNat / 100 % 10),
         digitChar (c.year.toNat / 10 % 10), digitChar (c.year.toNat % 10), '-',
         digitChar (c.month / 10), digitChar (c.month % 10), '-',
         digitChar (c.day / 10), digitChar (c.day % 10), ' ',
         digitChar (c.hour / 10), digitChar (c.hour % 10), ':',
         digitChar (c.minute / 10), digitChar (c.minute % 10), ':',
         digitChar (c.second / 10), digitChar (c.second % 10)] := by
  obtain ⟨hy0, hy1, _, hmo, _, hd, hh, hmi, hse⟩ := h
  have hy : ((c.year.toNat : Nat) : Int) = c.year := Int.toNat_of_nonneg hy0
  have h4 := appendInt_four c.year.toNat (by omega)
  rw [hy] at h4
  unfold Time.Format Now
  simp only []
  rw [h4, appendInt_two _ (by omega : c.month < 100),
    appendInt_two _ (by omega : c.day < 100), appendInt_two _ (by omega : c.hour < 100),
    appendInt_two _ (by omega : c.minute < 100), appendInt_two _ (by omega : c.second < 100)]
  simp

theorem digitsValue_two (a b : Nat) (ha : a < 10) (hb : b < 10) :
    digitsValue [digitChar a, digitChar b] = 10 * a + b := by
  simp [digitsValue, (digitChar_spec a ha).2, (digitChar_spec b hb).2]

theorem digitsValue_four (a b c d : Nat) (ha : a < 10) (hb : b < 10) (hc : c < 10) (hd : d < 10) :
    digitsValue [digitChar a, digitChar b, digitChar c, digitChar d]
      = 10 * (10 * (10 * a + b) + c) + d := by
  simp [digitsValue, (digitChar_spec a ha).2, (digitChar_spec b hb).2, (digitChar_spec c hc).2,
    (digitChar_spec d hd).2]

theorem format_shape (Local : Location) (c : WallClock) (h : c.Valid) :
    ((Now Local c).Format).length = 19
      ∧ isTimestamp ((Now Local c).Format) = true
      ∧ readTimestamp ((Now Local c).Format) = some c := by
  have hf := format_eq Local c h
  obtain ⟨hy0, hy1, _, hmo, _, hd, hh, hmi, hse⟩ := h
  have hy : ((c.year.toNat : Nat) : Int) = c.year := Int.toNat_of_nonneg hy0
  have hyn : c.year.toNat < 10000 := by omega
  refine ⟨?_, ?_, ?_⟩
  · show ((Now Local c).Format).data.length = 19
    rw [hf]; rfl
  · unfold isTimestamp
    rw [hf]
    simp only [Bool.and_eq_true, beq_self_eq_true, and_true]
    simp only [(digitChar_spec _ (by omega : c.year.toNat / 1000 < 10)).1,
      (digitChar_spec _ (Nat.mod_lt _ (by decide) : c.year.toNat / 100 % 10 < 10)).1,
      (digitChar_spec _ (Nat.mod_lt _ (by decide) : c.year.toNat / 10 % 10 < 10)).1,
      (digitChar_spec _ (Nat.mod_lt _ (by decide) : c.year.toNat % 10 < 10)).1,
      (digitChar_spec _ (by omega : c.month / 10 < 10)).1,
      (digitChar_spec _ (Nat.mod_lt _ (by decide) : c.month % 10 < 10)).1,
      (digitChar_spec _ (by omega : c.day / 10 < 10)).1,
      (digitChar_spec _ (Nat.mod_lt _ (by decide) : c.day % 10 < 10)).1,
      (digitChar_spec _ (by omega : c.hour / 10 < 10)).1,
      (digitChar_spec _ (Nat.mod_lt _ (by decide) : c.hour % 10 < 10)).1,
      (digitChar_spec _ (by omega : c.minute / 10 < 10)).1,
      (digitChar_spec _ (Nat.mod_lt _ (by decide) : c.minute % 10 < 10)).1,
      (digitChar_spec _ (by omega : c.second / 10 < 10)).1,
      (digitChar_spec _ (Nat.mod_lt _ (by decide) : c.second % 10 < 10)).1, and_self]
  · unfold readTimestamp
    rw [hf]
    simp only []
    rw [digitsValue_four _ _ _ _ (by omega) (Nat.mod_lt _ (by decide)) (Nat.mod_lt _ (by decide))
        (Nat.mod_lt _ (by decide)),
      digitsValue_two _ _ (by omega : c.month / 10 < 10) (Nat.mod_lt _ (by decide)),
      digitsValue_two _ _ (by omega : c.day / 10 < 10) (Nat.mod_lt _ (by decide)),
      digitsValue_two _ _ (by omega : c.hour / 10 < 10) (Nat.mod_lt _ (by decide)),
      digitsValue_two _ _ (by omega : c.minute / 10 < 10) (Nat.mod_lt _ (by decide)),
      digitsValue_two _ _ (by omega : c.second / 10 < 10) (Nat.mod_lt _ (by decide))]
    have e1 : ((10 * (10 * (10 * (c.year.toNat / 1000) + c.year.toNat / 100 % 10)
        + c.year.toNat / 10 % 10) + c.year.toNat % 10 : Nat) : Int) = c.year := by
      rw [← hy]; congr 1; omega
    have e2 : 10 * (c.month / 10) + c.month % 10 = c.month := by omega
    have e3 : 10 * (c.day / 10) + c.day % 10 = c.day := by omega
    have e4 : 10 * (c.hour / 10) + c.hour % 10 = c.hour := by omega
    have e5 : 10 * (c.minute / 10) + c.minute % 10 = c.minute := by omega
    have e6 : 10 * (c.second / 10) + c.second % 10 = c.second := by omega
    rw [e1, e2, e3, e4, e5, e6]

theorem init_local (tzdata : String → Bool) (Local0 Local : Location) (boot1 boot2 : WallClock)
    (evs : List Event) (h : init tzdata Local0 boot1 boot2 = .ok (Local, evs)) :
    Local.name = "Asia/Jakarta" := by
  unfold init LoadLocation at h
  simp only [show ¬ ("Asia/Jakarta" = "" ∨ "Asia/Jakarta" = "UTC") by decide,
    show ¬ ("Asia/Jakarta" = "Local") by decide, if_false] at h
  split at h
  · cases h
  · rename_i loc hloc
    split at hloc
    · cases hloc
      cases h
      rfl
    · cases hloc

/-- C7: once `init` has set the process-local zone, for every request the
handler of GET /api/v1/health replies with status 200 and a success envelope:
success = true, message = "API is Healthy", no errors key, and a data object
with exactly the keys server_time and timezone, where server_time is the
current time as a 19-character string of the form YYYY-MM-DD HH:MM:SS (its
digits read back as that time) and timezone is the non-empty name of the zone
set at init, "Asia/Jakarta". The current time is a clock reading with a
four-digit year. -/
theorem health_reply (tzdata : String → Bool) (Local0 Local : Location)
    (boot1 boot2 : WallClock) (evs : List Event) (clock1 clock2 : WallClock)
    (hinit : init tzdata Local0 boot1 boot2 = .ok (Local, evs)) (hclock : clock1.Valid) :
    (healthHandler Local clock1 clock2).status = 200
      ∧ (healthHandler Local clock1 clock2).keys = ["success", "message", "data"]
      ∧ (healthHandler Local clock1 clock2).field "success" = some (JSON.bool true)
      ∧ (healthHandler Local clock1 clock2).field "message" = some (JSON.str "API is Healthy")
      ∧ (healthHandler Local clock1 clock2).field "data"
          = some (JSON.obj [("server_time", JSON.str ((Now Local clock1).Format)),
                            ("timezone", JSON.str "Asia/Jakarta")])
      ∧ ((Now Local clock1).Format).length = 19
      ∧ isTimestamp ((Now Local clock1).Format) = true
      ∧ readTimestamp ((Now Local clock1).Format) = some clock1
      ∧ "Asia/Jakarta" ≠ "" := by
  have hname := init_local tzdata Local0 Local boot1 boot2 evs hinit
  obtain ⟨h1, h2, h3⟩ := format_shape Local clock1 hclock
  have hz : (Now Local clock2).Location.String = "Asia/Jakarta" := hname
  refine ⟨rfl, ?_, ?_, ?_, ?_, h1, h2, h3, by decide⟩
  · simp [healthHandler, SuccessResponse, Response.marshal, omitemptyField, Reply.keys]
  · simp [healthHandler, SuccessResponse, Response.marshal, omitemptyField, Reply.field,
      List.lookup]
  · simp [healthHandler, SuccessResponse, Response.marshal, omitemptyField, Reply.field,
      List.lookup]
  · simp [healthHandler, SuccessResponse, Response.marshal, omitemptyField, Reply.field,
      List.lookup, hz]

/-- C7, at a concrete input: at 09:05:07 on 4 November 2026 the data of the
health reply is that time and the zone set at init. -/
theorem health_reply_witness :
    sampleClock.Valid
      ∧ (healthHandler { name := "Asia/Jakarta" } sampleClock sampleClock).field "data"
          = some (JSON.obj [("server_time", JSON.str "2026-11-04 09:05:07"),
                            ("timezone", JSON.str "Asia/Jakarta")])
      ∧ ("2026-11-04 09:05:07" : String).length = 19 :=
  ⟨by decide,
   (health_reply fullTzdata { name := "UTC" } { name := "Asia/Jakarta" } sampleClock sampleClock
      _ sampleClock sampleClock rfl (by decide)).2.2.2.2.1,
   by decide⟩

/-! ## Theorems: the rate limiter -/

theorem serve_open (Local : Location) (st : Storage) (req : Request) (h : opensWindow st req) :
    serve Local st req
      = (fun k => if k = req.ip then { currHits := 1, exp := req.ts + 60 } else st k,
         healthHandler Local req.clock1 req.clock2) := by
  rcases h with h | ⟨hpos, hle⟩
  · simp [serve, limiterNew, h, main.limiterConfig]
  · have hne : (st req.ip).exp ≠ 0 := by omega
    simp [serve, limiterNew, hne, hle, main.limiterConfig]

theorem serve_within (Local : Location) (st : Storage) (req : Request) (k : Int) (x : Nat)
    (hst : st req.ip = { currHits := k, exp := x }) (hx : 0 < x) (hts : req.ts < x) :
    serve Local st req
      = (fun key => if key = req.ip then { currHits := k + 1, exp := x } else st key,
         if k + 1 ≤ 50 then healthHandler Local req.clock1 req.clock2
         else ErrorResponse 429 "Too many requests" none) := by
  have hne : x ≠ 0 := by omega
  have hlt : ¬ (x ≤ req.ts) := by omega
  by_cases hk : k + 1 ≤ 50
  · have hr : ¬ (50 - (k + 1) < 0) := by omega
    simp [serve, limiterNew, hst, hne, hlt, main.limiterConfig, hk, hr]
  · have hr : 50 - (k + 1) < 0 := by omega
    simp [serve, limiterNew, hst, hne, hlt, main.limiterConfig, hk, hr]

theorem serveAll_within (Local : Location) (ip : String) (x : Nat) (hx : 0 < x) :
    ∀ (reqs : List Request) (st : Storage) (k : Int),
      st ip = { currHits := k, exp := x } →
      (∀ r ∈ reqs, r.ip = ip ∧ r.ts < x) →
      ∀ n, n < reqs.length →
        ∃ req, reqs[n]? = some req
          ∧ (serveAll Local st reqs)[n]?
              = some (if k + n + 1 ≤ 50 then healthHandler Local req.clock1 req.clock2
                      else ErrorResponse 429 "Too many requests" none) := by
  intro reqs
  induction reqs with
  | nil => intro st k _ _ n hn; simp at hn
  | cons r rest ih =>
    intro st k hst hall n hn
    have hr := hall r (List.mem_cons_self _ _)
    have hs := serve_within Local st r k x (by rw [hr.1]; exact hst) hx hr.2
    cases n with
    | zero =>
      refine ⟨r, by simp, ?_⟩
      simp [serveAll, hs]
    | succ m =>
      have hm : m < rest.length := by simpa using hn
      have hst2 : (serve Local st r).1 ip = { currHits := k + 1, exp := x } := by
        rw [hs]; simp [hr.1]
      obtain ⟨req, h1, h2⟩ := ih (serve Local st r).1 (k + 1) hst2
        (fun q hq => hall q (List.mem_cons_of_mem _ hq)) m hm
      refine ⟨req, by simpa using h1, ?_⟩
      have e : k + 1 + (m : Int) + 1 = k + ((m + 1 : Nat) : Int) + 1 := by push_cast; ring
      rw [e] at h2
      simpa [serveAll] using h2

/-- C3: for one client and requests to /api/v1/health that all fall inside the
window of 60 seconds opened by the first of them, every request is answered:
the n-th with status 200 and the health envelope when n is at most 50, and the
51st (and each later one) with status 429 and a failure envelope whose success
is false and whose message is "Too many requests". Requests are numbered from
0 here, so the 51st has index 50. -/
theorem limiter_window (Local : Location) (st : Storage) (first : Request) (rest : List Request)
    (hopen : opensWindow st first)
    (hrest : ∀ r ∈ rest, r.ip = first.ip ∧ r.ts < first.ts + 60)
    (n : Nat) (hn : n < (first :: rest).length) :
    ∃ reply, (serveAll Local st (first :: rest))[n]? = some reply
      ∧ (n < 50 → reply.status = 200
            ∧ reply.field "success" = some (JSON.bool true)
            ∧ reply.field "message" = some (JSON.str "API is Healthy"))
      ∧ (50 ≤ n → reply.status = 429
            ∧ reply.field "success" = some (JSON.bool false)
            ∧ reply.field "message" = some (JSON.str "Too many requests")) := by
  have hhealth : ∀ c1 c2 : WallClock,
      (healthHandler Local c1 c2).status = 200
        ∧ (healthHandler Local c1 c2).field "success" = some (JSON.bool true)
        ∧ (healthHandler Local c1 c2).field "message" = some (JSON.str "API is Healthy") := by
    intro c1 c2
    simp [healthHandler, SuccessResponse, Response.marshal, omitemptyField, Reply.field,
      List.lookup]
  have hlimit : (ErrorResponse 429 "Too many requests" none).status = 429
      ∧ (ErrorResponse 429 "Too many requests" none).field "success" = some (JSON.bool false)
      ∧ (ErrorResponse 429 "Too many requests" none).field "message"
          = some (JSON.str "Too many requests") := by
    simp [ErrorResponse, Response.marshal, omitemptyField, Reply.field, List.lookup]
  have hs := serve_open Local st first hopen
  cases n with
  | zero =>
    refine ⟨healthHandler Local first.clock1 first.clock2, by simp [serveAll, hs], ?_, ?_⟩
    · intro _; exact hhealth _ _
    · intro h; omega
  | succ m =>
    have hm : m < rest.length := by simpa using hn
    have hst : (serve Local st first).1 first.ip = { currHits := 1, exp := first.ts + 60 } := by
      rw [hs]; simp
    obtain ⟨req, _, h2⟩ := serveAll_within Local first.ip (first.ts + 60) (by omega) rest
      (serve Local st first).1 1 hst hrest m hm
    refine ⟨_, by simpa [serveAll] using h2, ?_, ?_⟩
    · intro h
      have hk : (1 : Int) + (m : Int) + 1 ≤ 50 := by omega
      rw [if_pos hk]; exact hhealth _ _
    · intro h
      have hk : ¬ ((1 : Int) + (m : Int) + 1 ≤ 50) := by omega
      rw [if_neg hk]; exact hlimit

/-- C3, at a concrete input: 51 requests of one client in the same second, on
a fresh server; the 51st is answered with status 429. -/
theorem limiter_window_witness :
    opensWindow Storage.empty sampleRequest
      ∧ (∀ r ∈ List.replicate 50 sampleRequest,
          r.ip = sampleRequest.ip ∧ r.ts < sampleRequest.ts + 60)
      ∧ ∃ reply,
          (serveAll { name := "Asia/Jakarta" } Storage.empty
            (sampleRequest :: List.replicate 50 sampleRequest))[50]? = some reply
          ∧ reply.status = 429
          ∧ reply.field "message" = some (JSON.str "Too many requests") :=
  have hrest : ∀ r ∈ List.replicate 50 sampleRequest,
      r.ip = sampleRequest.ip ∧ r.ts < sampleRequest.ts + 60 := by
    intro r hr
    rw [List.eq_of_mem_replicate hr]
    decide
  ⟨by decide, hrest,
    (limiter_window { name := "Asia/Jakarta" } Storage.empty sampleRequest
      (List.replicate 50 sampleRequest) (by decide) hrest 50 (by simp)).imp
      (fun _ h => ⟨h.1, (h.2.2 (le_refl 50)).1, (h.2.2 (le_refl 50)).2.2⟩)⟩

end FiberApp
